import Mathlib

/-!
Shallow embedding of the escape-room booking core (`booking_service.py`).

Time is modelled as integer instants (UTC).  A Python `datetime` value is a
wall-clock value together with an optional timezone offset (`none` = naive);
normalising a naive value to UTC keeps the wall-clock reading, while an
aware value denotes the instant `wall - offset`.  The mutable SQL store is
an explicit `Store` record threaded through the operations; SQL `NULL`
comparison semantics (`NULL < x` filters the row out) are rendered with
`Option.any`.  Result dictionaries become the `BRes` type carrying the exact
message strings of the source.
-/

namespace BookingService

/-- A Python datetime: a wall-clock reading plus an optional UTC offset
(minutes east); `tzOffset = none` models a timezone-naive value. -/
structure PyDatetime where
  wall : Int
  tzOffset : Option Int
deriving Repr, DecidableEq

/-- The UTC instant denoted by a datetime once it is timezone-aware.
`dt.replace(tzinfo=timezone.utc)` on a naive value keeps the wall reading,
so a naive value normalises to the instant equal to its wall reading. -/
def PyDatetime.instant (d : PyDatetime) : Int :=
  d.wall - d.tzOffset.getD 0

/-- A date-like argument as the service receives it: Python `None`, a string
(empty-ness decides Python truthiness; `parsed` is the result of
`datetime.fromisoformat`, `none` when parsing raises `ValueError`), or an
actual datetime object. -/
inductive DateInput where
  | nothing : DateInput
  | strVal (empty : Bool) (parsed : Option PyDatetime) : DateInput
  | dtVal (d : PyDatetime) : DateInput
deriving Repr, DecidableEq

/-- Python truthiness of a date-like argument, as tested by
`all([start_date, end_date])`: `None` and the empty string are falsy,
every datetime object is truthy. -/
def DateInput.truthy : DateInput → Bool
  | .nothing => false
  | .strVal empty _ => !empty
  | .dtVal _ => true

/-- `_parse_datetime`: strings go through `fromisoformat` (`None` on
`ValueError`); a naive result is reinterpreted as UTC.  Returns the
normalised UTC instant.  (The `None` input never reaches this helper in the
source: `_validate_booking_dates` rejects falsy arguments first.) -/
def _parse_datetime : DateInput → Option Int
  | .nothing => none
  | .strVal _ parsed => parsed.map PyDatetime.instant
  | .dtVal d => some d.instant

/-- A stored user row. -/
structure User where
  id : Nat
  username : String
  email : String
  password : String
deriving Repr, DecidableEq

/-- A stored room row. -/
structure Room where
  id : Nat
  name : String
  description : String
  price : Int
deriving Repr, DecidableEq

/-- A stored booking row.  `start_date`, `end_date` and `created_at` are
nullable columns holding instants. -/
structure Booking where
  id : Nat
  room_id : Nat
  user_id : Nat
  start_date : Option Int
  end_date : Option Int
  status : String
  created_at : Option Int
deriving Repr, DecidableEq

/-- The SQL store: the three tables plus the autoincrement counters. -/
structure Store where
  rooms : List Room
  users : List User
  bookings : List Booking
  nextUserId : Nat
  nextBookingId : Nat
deriving Repr, DecidableEq

/-- Operation results: the `{'error': ...}` / `{'success': ...}` dicts of the
source, with the optional `booking_id` key. -/
inductive BRes where
  | ok (msg : String)
  | okId (msg : String) (booking_id : Nat)
  | err (msg : String)
deriving Repr, DecidableEq

/-- `_get_expired_threshold`: `now - hold_duration` (`BOOKING_HOLD_MINUTES`). -/
def _get_expired_threshold (now hold : Int) : Int :=
  now - hold

/-- `retrieve_user`: look up by email; if found return the stored row and
leave the store alone, otherwise insert (and commit) a fresh user with an
empty password. -/
def retrieve_user (store : Store) (username email : String) : User × Store :=
  match store.users.find? (fun u => u.email == email) with
  | some u => (u, store)
  | none =>
      let u : User := { id := store.nextUserId, username := username, email := email, password := "" }
      (u, { store with users := store.users ++ [u], nextUserId := store.nextUserId + 1 })

/-- `determine_booking_status`: a `pending` booking whose (non-null)
`created_at` is strictly older than the expiry threshold reads as
`expired`; every other booking reads as its stored status. -/
def determine_booking_status (now hold : Int) (b : Booking) : String :=
  if b.status == "pending" then
    match b.created_at with
    | some c => if c < _get_expired_threshold now hold then "expired" else b.status
    | none => b.status
  else b.status

/-- Replay of the SQL row filter of `_check_room_available` for one booking:
the row blocks the window `[s, e)` iff `start_date < e`, `end_date > s`
(SQL `NULL` comparisons fail), and the row is `confirmed`, or `pending`
with `created_at` strictly after the threshold. -/
def blocksWindow (now hold : Int) (s e : Int) (b : Booking) : Bool :=
  (b.start_date.any fun sd => sd < e) &&
  (b.end_date.any fun ed => s < ed) &&
  (b.status == "confirmed" ||
    (b.status == "pending" && b.created_at.any fun c => _get_expired_threshold now hold < c))

/-- `_check_room_available`: true iff no booking of the room blocks the
window. -/
def _check_room_available (store : Store) (now hold : Int) (room_id : Nat) (s e : Int) : Bool :=
  !(store.bookings.any fun b => b.room_id == room_id && blocksWindow now hold s e b)

/-- `_validate_booking_dates`: reject falsy arguments, then unparsable ones,
then `start >= end`, then a start or end strictly before `now`; otherwise
return the normalised instants. -/
def _validate_booking_dates (now : Int) (start_date end_date : DateInput) :
    Except String (Int × Int) :=
  if !(start_date.truthy && end_date.truthy) then
    .error "start_date and end_date are required."
  else
    match _parse_datetime start_date, _parse_datetime end_date with
    | some s, some e =>
        if e ≤ s then .error "start_date must be before end_date."
        else if s < now ∨ e < now then .error "start_date and end_date must be in the future."
        else .ok (s, e)
    | _, _ => .error "Invalid date format. Use ISO8601 (YYYY-MM-DDTHH:MM:SSZ)"

/-- The in-place status mutation followed by `commit`: rewrite the status of
the row(s) with the given primary key. -/
def setStatus (bs : List Booking) (i : Nat) (st : String) : List Booking :=
  bs.map fun b => if b.id == i then { b with status := st } else b

/-- `confirm_booking`: the query selects a row with this id, status
`pending`, and `created_at` strictly after the threshold; absent such a
row, fail; otherwise set the status to `confirmed`. -/
def confirm_booking (store : Store) (now hold : Int) (booking_id : Nat) : BRes × Store :=
  match store.bookings.find? (fun b =>
      b.id == booking_id && b.status == "pending" &&
        b.created_at.any fun c => _get_expired_threshold now hold < c) with
  | none => (.err "Booking not found or not pending.", store)
  | some b =>
      (.ok "Booking confirmed successfully.",
       { store with bookings := setStatus store.bookings b.id "confirmed" })

/-- `cancel_booking`: fail if the id is absent; fail if a non-null
`end_date` is strictly before `now`; otherwise set the status to
`cancelled` whatever it was. -/
def cancel_booking (store : Store) (now : Int) (booking_id : Nat) : BRes × Store :=
  match store.bookings.find? (fun b => b.id == booking_id) with
  | none => (.err "Booking not found.", store)
  | some b =>
      match b.end_date with
      | some ed =>
          if ed < now then
            (.err "Cannot cancel a booking after its end_date has passed.", store)
          else
            (.ok "Booking cancelled successfully.",
             { store with bookings := setStatus store.bookings b.id "cancelled" })
      | none =>
          (.ok "Booking cancelled successfully.",
           { store with bookings := setStatus store.bookings b.id "cancelled" })

/-- `release_booking`: the query selects a row with this id and status
exactly `pending` (no expiry test); absent such a row, fail; otherwise set
the status to `released`. -/
def release_booking (store : Store) (booking_id : Nat) : BRes × Store :=
  match store.bookings.find? (fun b => b.id == booking_id && b.status == "pending") with
  | none => (.err "Booking not found or not pending.", store)
  | some b =>
      (.ok "Booking released successfully.",
       { store with bookings := setStatus store.bookings b.id "released" })

/-- Modelled from the spec: the `Booking` model (its module is not part of
the sources at hand) stamps `created_at` with the instant of hold
acquisition when a row is inserted. -/
def newBookingCreatedAt (now : Int) : Option Int :=
  some now

/-- `create_booking`: require all arguments truthy, validate the window,
require the room, resolve/create (and commit) the user, check availability,
then insert a fresh booking with the given status (default `pending`). -/
def create_booking (store : Store) (now hold : Int) (room_id : Nat)
    (user_name user_email : String) (start_date end_date : DateInput)
    (status : String := "pending") : BRes × Store :=
  if !(room_id != 0 && user_name != "" && user_email != "" &&
       start_date.truthy && end_date.truthy) then
    (.err "room_id, user_name, user_email, start_date, and end_date are required.", store)
  else
    match _validate_booking_dates now start_date end_date with
    | .error msg => (.err msg, store)
    | .ok (s, e) =>
        match store.rooms.find? (fun r => r.id == room_id) with
        | none => (.err "Room does not exist.", store)
        | some _ =>
            if !(_check_room_available (retrieve_user store user_name user_email).2
                   now hold room_id s e) then
              (.err "Room is not available for the selected time range.",
               (retrieve_user store user_name user_email).2)
            else
              (.okId "Booking created successfully."
                 (retrieve_user store user_name user_email).2.nextBookingId,
               { (retrieve_user store user_name user_email).2 with
                   bookings := (retrieve_user store user_name user_email).2.bookings ++
                     [{ id := (retrieve_user store user_name user_email).2.nextBookingId,
                        room_id := room_id,
                        user_id := (retrieve_user store user_name user_email).1.id,
                        start_date := some s, end_date := some e, status := status,
                        created_at := newBookingCreatedAt now }],
                   nextBookingId :=
                     (retrieve_user store user_name user_email).2.nextBookingId + 1 })

/-- `update_booking`: fail if the id is absent; re-validate the window; when
the new status is `confirmed` or `pending`, re-check availability for the
room excluding no row; then overwrite start, end and status. -/
def update_booking (store : Store) (now hold : Int) (booking_id : Nat)
    (start_date end_date : DateInput) (status : String) : BRes × Store :=
  match store.bookings.find? (fun b => b.id == booking_id) with
  | none => (.err "Booking not found.", store)
  | some b =>
      match _validate_booking_dates now start_date end_date with
      | .error msg => (.err msg, store)
      | .ok (s, e) =>
          if (status == "confirmed" || status == "pending") &&
             !(_check_room_available store now hold b.room_id s e) then
            (.err "Room is not available for the selected time range.", store)
          else
            (.okId "Booking updated successfully." b.id,
             { store with bookings := store.bookings.map fun b2 =>
                 if b2.id == b.id then
                   { b2 with start_date := some s, end_date := some e, status := status }
                 else b2 })

/-! ## Helper lemmas -/

/-- `retrieve_user` never touches the rooms table. -/
theorem retrieve_user_rooms (store : Store) (nm em : String) :
    (retrieve_user store nm em).2.rooms = store.rooms := by
  unfold retrieve_user
  cases store.users.find? (fun u => u.email == em) <;> rfl

/-- `retrieve_user` never touches the bookings table. -/
theorem retrieve_user_bookings (store : Store) (nm em : String) :
    (retrieve_user store nm em).2.bookings = store.bookings := by
  unfold retrieve_user
  cases store.users.find? (fun u => u.email == em) <;> rfl

/-- `retrieve_user` never touches the booking id counter. -/
theorem retrieve_user_nextBookingId (store : Store) (nm em : String) :
    (retrieve_user store nm em).2.nextBookingId = store.nextBookingId := by
  unfold retrieve_user
  cases store.users.find? (fun u => u.email == em) <;> rfl

/-- With no duplicate primary keys, `find?` with a predicate that pins the
id returns exactly the known matching row. -/
theorem find_first_unique (l : List Booking) (p : Booking → Bool) (b : Booking)
    (hn : (l.map Booking.id).Nodup) (hb : b ∈ l) (hpb : p b = true)
    (hid : ∀ x, p x = true → x.id = b.id) :
    l.find? p = some b := by
  induction l with
  | nil => cases hb
  | cons a t ih =>
      rw [List.map_cons, List.nodup_cons] at hn
      cases hpa : p a with
      | false =>
          have hbt : b ∈ t := by
            rcases List.mem_cons.mp hb with h | h
            · rw [h] at hpb; rw [hpb] at hpa; cases hpa
            · exact h
          rw [List.find?_cons_of_neg t (by simp [hpa]), ih hn.2 hbt]
      | true =>
          have hba : b = a := by
            rcases List.mem_cons.mp hb with h | h
            · exact h
            · exact absurd (hid a hpa ▸ List.mem_map_of_mem Booking.id h) hn.1
          rw [List.find?_cons_of_pos t hpa, hba]

/-- A validated window implies both inputs were truthy. -/
theorem validate_ok_truthy (now : Int) (sIn eIn : DateInput) (p : Int × Int)
    (h : _validate_booking_dates now sIn eIn = .ok p) :
    sIn.truthy = true ∧ eIn.truthy = true := by
  unfold _validate_booking_dates at h
  cases hs : sIn.truthy <;> cases he : eIn.truthy <;> simp [hs, he] at h
  exact ⟨rfl, rfl⟩

/-! ## Claims -/

/-- **C4** (corrected): `_validate_booking_dates` succeeds exactly when both
inputs are truthy, both parse, `start < end`, and neither instant is
strictly before `now` (an instant equal to `now` is accepted); on success
it returns the normalised instants, and a timezone-naive datetime is read
as UTC. -/
theorem validate_dates_spec (now : Int) (sIn eIn : DateInput) :
    ((∃ p, _validate_booking_dates now sIn eIn = .ok p) ↔
      (sIn.truthy = true ∧ eIn.truthy = true ∧
        ∃ s e, _parse_datetime sIn = some s ∧ _parse_datetime eIn = some e ∧
          s < e ∧ now ≤ s ∧ now ≤ e))
  ∧ (∀ s e, _parse_datetime sIn = some s → _parse_datetime eIn = some e →
      sIn.truthy = true → eIn.truthy = true → s < e → now ≤ s → now ≤ e →
      _validate_booking_dates now sIn eIn = .ok (s, e))
  ∧ (∀ w : Int, _parse_datetime (DateInput.dtVal ⟨w, none⟩) = some w) := by
  refine ⟨⟨?_, ?_⟩, ?_, ?_⟩
  · rintro ⟨p, hp⟩
    obtain ⟨hts, hte⟩ := validate_ok_truthy now sIn eIn p hp
    unfold _validate_booking_dates at hp
    rw [hts, hte] at hp
    simp only [Bool.and_self, Bool.not_true, Bool.false_eq_true, if_false] at hp
    cases hps : _parse_datetime sIn with
    | none => rw [hps] at hp; cases hpe : _parse_datetime eIn <;> rw [hpe] at hp <;> cases hp
    | some s =>
        cases hpe : _parse_datetime eIn with
        | none => rw [hps, hpe] at hp; cases hp
        | some e =>
            rw [hps, hpe] at hp
            refine ⟨hts, hte, s, e, rfl, rfl, ?_⟩
            by_cases h1 : e ≤ s
            · simp [h1] at hp
            · by_cases h2 : s < now ∨ e < now
              · simp [h1, h2] at hp
              · push_neg at h2
                omega
  · rintro ⟨hts, hte, s, e, hps, hpe, hlt, hns, hne⟩
    refine ⟨(s, e), ?_⟩
    unfold _validate_booking_dates
    rw [hts, hte, hps, hpe]
    simp only [Bool.and_self, Bool.not_true, Bool.false_eq_true, if_false]
    rw [if_neg (by omega), if_neg (by omega)]
  · intro s e hps hpe hts hte hlt hns hne
    unfold _validate_booking_dates
    rw [hts, hte, hps, hpe]
    simp only [Bool.and_self, Bool.not_true, Bool.false_eq_true, if_false]
    rw [if_neg (by omega), if_neg (by omega)]
  · intro w
    simp [_parse_datetime, PyDatetime.instant]

/-- **C4 witness**: at `now = 50`, the window `[60, 70)` given as aware
datetimes validates to `(60, 70)`. -/
theorem validate_dates_spec_witness :
    _validate_booking_dates 50 (DateInput.dtVal ⟨60, some 0⟩) (DateInput.dtVal ⟨70, some 0⟩) =
      .ok (60, 70) := by
  have h := (validate_dates_spec 50 (DateInput.dtVal ⟨60, some 0⟩) (DateInput.dtVal ⟨70, some 0⟩)).2.1
  exact h 60 70 (by decide) (by decide) (by decide) (by decide) (by decide) (by decide) (by decide)

/-- **C4 counterexample**: the claim says a window whose start equals the
current moment (hence not strictly in the future) must fail; at `now = 100`
the code accepts `start = 100`, `end = 101`. -/
theorem validate_dates_boundary_cex :
    _validate_booking_dates 100 (DateInput.dtVal ⟨100, some 0⟩) (DateInput.dtVal ⟨101, some 0⟩) =
      .ok (100, 101) := by rfl

/-- **C9** (confirmed): `retrieve_user` returns an existing user with that
email unchanged (the supplied name is ignored, nothing is inserted);
otherwise it inserts and returns a new user with the supplied name and
email and an empty placeholder credential. -/
theorem retrieve_user_find_or_create (store : Store) (nm em : String) :
    ((∃ u ∈ store.users, u.email = em) →
      ∃ u ∈ store.users, u.email = em ∧ retrieve_user store nm em = (u, store))
  ∧ ((∀ u ∈ store.users, u.email ≠ em) →
      retrieve_user store nm em =
        ({ id := store.nextUserId, username := nm, email := em, password := "" },
         { store with
             users := store.users ++
               [{ id := store.nextUserId, username := nm, email := em, password := "" }],
             nextUserId := store.nextUserId + 1 })) := by
  constructor
  · rintro ⟨u, hu, hue⟩
    cases hf : store.users.find? (fun x => x.email == em) with
    | none =>
        exact absurd (show (u.email == em) = true by simp [hue])
          (List.find?_eq_none.mp hf u hu)
    | some v =>
        refine ⟨v, List.mem_of_find?_eq_some hf, ?_, ?_⟩
        · simpa using List.find?_some hf
        · unfold retrieve_user; rw [hf]
  · intro h
    have hf : store.users.find? (fun x => x.email == em) = none :=
      List.find?_eq_none.mpr fun x hx hpx => h x hx (by simpa using hpx)
    unfold retrieve_user; rw [hf]

/-- A user row used by concrete instances below. -/
def uW : User := { id := 1, username := "alice", email := "a@x", password := "p" }

/-- A one-user store used by concrete instances below. -/
def stW : Store := { rooms := [], users := [uW], bookings := [], nextUserId := 2, nextBookingId := 1 }

/-- **C9 witness**: resolving `a@x` (with a different supplied name) on a
store already holding that email returns the stored row and leaves the
store alone. -/
theorem retrieve_user_find_or_create_witness :
    ∃ u ∈ stW.users, u.email = "a@x" ∧ retrieve_user stW "bob" "a@x" = (u, stW) :=
  (retrieve_user_find_or_create stW "bob" "a@x").1 ⟨uW, by simp [stW], rfl⟩

/-- **C3** (corrected): for a `pending` reservation, `expired` always
implies non-blocking, and `created_at` strictly older than the threshold
gives both `expired` and non-blocking; but at the boundary — `created_at`
exactly equal to `now - hold` or missing — the reservation is non-blocking
while still reporting `pending`, so the claimed equivalence fails; strictly
after the threshold it reports `pending` and blocks any overlapping
window. -/
theorem status_availability_agreement (now hold s e : Int) (b : Booking)
    (hp : b.status = "pending") :
    (determine_booking_status now hold b = "expired" → blocksWindow now hold s e b = false)
  ∧ (∀ c, b.created_at = some c → c < now - hold →
      determine_booking_status now hold b = "expired" ∧ blocksWindow now hold s e b = false)
  ∧ ((b.created_at = some (now - hold) ∨ b.created_at = none) →
      determine_booking_status now hold b = "pending" ∧ blocksWindow now hold s e b = false)
  ∧ (∀ c sd ed, b.created_at = some c → now - hold < c →
      b.start_date = some sd → b.end_date = some ed → sd < e → s < ed →
      determine_booking_status now hold b = "pending" ∧ blocksWindow now hold s e b = true) := by
  refine ⟨?_, ?_, ?_, ?_⟩
  · intro h
    cases hca : b.created_at with
    | none => simp [determine_booking_status, hp, hca] at h
    | some c =>
        simp only [determine_booking_status, hp, hca, _get_expired_threshold] at h
        by_cases hc : c < now - hold
        · simp [blocksWindow, hp, hca, _get_expired_threshold]
          omega
        · simp [hc] at h
  · intro c hca hc
    constructor
    · simp [determine_booking_status, hp, hca, _get_expired_threshold, hc]
    · simp [blocksWindow, hp, hca, _get_expired_threshold]
      omega
  · intro hca
    cases hca with
    | inl hca =>
        constructor
        · simp [determine_booking_status, hp, hca, _get_expired_threshold]
        · simp [blocksWindow, hp, hca, _get_expired_threshold]
    | inr hca =>
        constructor
        · simp [determine_booking_status, hp, hca]
        · simp [blocksWindow, hp, hca]
  · intro c sd ed hca hc hsd hed hse hes
    constructor
    · simp [determine_booking_status, hp, hca, _get_expired_threshold]
      omega
    · simp [blocksWindow, hp, hca, hsd, hed, _get_expired_threshold]
      omega

/-- A `pending` booking exactly at the expiry boundary
(`created_at = now - hold` for `now = 10`, `hold = 5`). -/
def bC3 : Booking :=
  { id := 1, room_id := 1, user_id := 1, start_date := some 0, end_date := some 100,
    status := "pending", created_at := some 5 }

/-- A store holding only the boundary booking `bC3` on room 1. -/
def stC3 : Store :=
  { rooms := [], users := [], bookings := [bC3], nextUserId := 1, nextBookingId := 2 }

/-- **C3 counterexample**: at the boundary the Availability Engine treats
the reservation as non-blocking — room 1 is reported free for the
overlapping window `[0, 100)` — while the Status Resolver still reports
`pending`, so "`expired` iff non-blocking" is false. -/
theorem status_availability_cex :
    determine_booking_status 10 5 bC3 ≠ "expired" ∧
    _check_room_available stC3 10 5 1 0 100 = true ∧
    blocksWindow 10 5 0 100 bC3 = false := by
  decide

/-- A `pending` booking already expired at `now = 10`, `hold = 5`. -/
def bW3 : Booking :=
  { id := 1, room_id := 1, user_id := 1, start_date := some 0, end_date := some 100,
    status := "pending", created_at := some (-1) }

/-- **C3 witness**: an expired `pending` booking reports `expired` and does
not block the overlapping window `[0, 100)`. -/
theorem status_availability_agreement_witness :
    determine_booking_status 10 5 bW3 = "expired" ∧ blocksWindow 10 5 0 100 bW3 = false :=
  (status_availability_agreement 10 5 0 100 bW3 rfl).2.1 (-1) rfl (by decide)

/-- **C7** (confirmed): `release_booking` succeeds exactly on an existing
reservation whose stored status is `pending` (no expiry test), setting it
to `released`; otherwise it fails with the not-found-or-not-pending error
and leaves the store alone. -/
theorem release_spec (store : Store) (i : Nat) :
    ((∀ b ∈ store.bookings, b.id = i → b.status ≠ "pending") →
      release_booking store i = (.err "Booking not found or not pending.", store))
  ∧ (∀ b ∈ store.bookings, b.id = i → b.status = "pending" →
      release_booking store i =
        (.ok "Booking released successfully.",
         { store with bookings := setStatus store.bookings i "released" })) := by
  constructor
  · intro h
    have hf : store.bookings.find? (fun b => b.id == i && b.status == "pending") = none := by
      refine List.find?_eq_none.mpr fun x hx hpx => ?_
      simp only [Bool.and_eq_true, beq_iff_eq] at hpx
      exact h x hx hpx.1 hpx.2
    unfold release_booking; rw [hf]
  · intro b hb hbi hbs
    cases hf : store.bookings.find? (fun x => x.id == i && x.status == "pending") with
    | none =>
        exact absurd (show (b.id == i && b.status == "pending") = true by simp [hbi, hbs])
          (List.find?_eq_none.mp hf b hb)
    | some b2 =>
        have h2 := List.find?_some hf
        simp only [Bool.and_eq_true, beq_iff_eq] at h2
        unfold release_booking
        rw [hf]
        simp [h2.1]

/-- An expired `pending` booking in a store, to drive release concretely. -/
def stRelW : Store :=
  { rooms := [], users := [],
    bookings := [{ id := 3, room_id := 1, user_id := 1, start_date := some 0,
                   end_date := some 100, status := "pending", created_at := some (-100) }],
    nextUserId := 1, nextBookingId := 4 }

/-- **C7 witness**: releasing the (expired) `pending` booking `3` succeeds
and stores `released`. -/
theorem release_spec_witness :
    release_booking stRelW 3 =
      (.ok "Booking released successfully.",
       { stRelW with bookings := setStatus stRelW.bookings 3 "released" }) :=
  (release_spec stRelW 3).2
    { id := 3, room_id := 1, user_id := 1, start_date := some 0,
      end_date := some 100, status := "pending", created_at := some (-100) }
    (by simp [stRelW]) rfl rfl

/-- **C5** (confirmed): `confirm_booking` succeeds exactly on an existing
reservation that is `pending` with `created_at` strictly after the expiry
threshold, setting it to `confirmed`; in every other case (absent, expired,
cancelled, released, confirmed) it fails with the
not-found-or-not-pending error and leaves the store alone. -/
theorem confirm_spec (store : Store) (now hold : Int) (i : Nat) :
    ((∀ b ∈ store.bookings, b.id = i →
        ¬(b.status = "pending" ∧ ∃ c, b.created_at = some c ∧ now - hold < c)) →
      confirm_booking store now hold i = (.err "Booking not found or not pending.", store))
  ∧ (∀ b ∈ store.bookings, b.id = i → b.status = "pending" →
      ∀ c, b.created_at = some c → now - hold < c →
      confirm_booking store now hold i =
        (.ok "Booking confirmed successfully.",
         { store with bookings := setStatus store.bookings i "confirmed" })) := by
  constructor
  · intro h
    have hf : store.bookings.find? (fun b =>
        b.id == i && b.status == "pending" &&
          b.created_at.any fun c => _get_expired_threshold now hold < c) = none := by
      refine List.find?_eq_none.mpr fun x hx hpx => ?_
      simp only [Bool.and_eq_true, beq_iff_eq] at hpx
      obtain ⟨⟨hxi, hxs⟩, hxa⟩ := hpx
      cases hxc : x.created_at with
      | none => rw [hxc] at hxa; cases hxa
      | some c =>
          rw [hxc] at hxa
          simp only [Option.any_some, decide_eq_true_eq, _get_expired_threshold] at hxa
          exact h x hx hxi ⟨hxs, c, hxc, hxa⟩
    unfold confirm_booking; rw [hf]
  · intro b hb hbi hbs c hbc hc
    cases hf : store.bookings.find? (fun x =>
        x.id == i && x.status == "pending" &&
          x.created_at.any fun c => _get_expired_threshold now hold < c) with
    | none =>
        refine absurd ?_ (List.find?_eq_none.mp hf b hb)
        simp [hbi, hbs, hbc, _get_expired_threshold, hc]
    | some b2 =>
        have h2 := List.find?_some hf
        simp only [Bool.and_eq_true, beq_iff_eq] at h2
        unfold confirm_booking
        rw [hf]
        simp [h2.1.1]

/-- A store with one unexpired `pending` booking (id 7). -/
def stCf : Store :=
  { rooms := [], users := [],
    bookings := [{ id := 7, room_id := 1, user_id := 1, start_date := some 20,
                   end_date := some 30, status := "pending", created_at := some 8 }],
    nextUserId := 1, nextBookingId := 8 }

/-- **C5 witness**: confirming the unexpired `pending` booking `7` at
`now = 10`, `hold = 5` succeeds and stores `confirmed`. -/
theorem confirm_spec_witness :
    confirm_booking stCf 10 5 7 =
      (.ok "Booking confirmed successfully.",
       { stCf with bookings := setStatus stCf.bookings 7 "confirmed" }) :=
  (confirm_spec stCf 10 5 7).2
    { id := 7, room_id := 1, user_id := 1, start_date := some 20,
      end_date := some 30, status := "pending", created_at := some 8 }
    (by simp [stCf]) rfl rfl 8 rfl (by decide)

/-- **C6** (confirmed): `cancel_booking` fails `NotFound` when the id is
absent, fails `PastEndDate` (leaving the store alone) when the stored end
is strictly in the past, and otherwise stores `cancelled` whatever the
current status was. -/
theorem cancel_spec (store : Store) (now : Int) (i : Nat) :
    ((∀ b ∈ store.bookings, b.id ≠ i) →
      cancel_booking store now i = (.err "Booking not found.", store))
  ∧ (∀ b ∈ store.bookings, (store.bookings.map Booking.id).Nodup → b.id = i →
      ((∀ ed, b.end_date = some ed → ed < now →
          cancel_booking store now i =
            (.err "Cannot cancel a booking after its end_date has passed.", store))
       ∧ ((∀ ed, b.end_date = some ed → now ≤ ed) →
          cancel_booking store now i =
            (.ok "Booking cancelled successfully.",
             { store with bookings := setStatus store.bookings i "cancelled" })))) := by
  constructor
  · intro h
    have hf : store.bookings.find? (fun b => b.id == i) = none :=
      List.find?_eq_none.mpr fun x hx hpx => h x hx (by simpa using hpx)
    unfold cancel_booking; rw [hf]
  · intro b hb hn hbi
    have hf : store.bookings.find? (fun x => x.id == i) = some b := by
      refine find_first_unique store.bookings _ b hn hb (by simp [hbi]) ?_
      intro x hpx
      simp only [beq_iff_eq] at hpx
      rw [hpx, hbi]
    constructor
    · intro ed hed hlt
      unfold cancel_booking
      rw [hf]
      simp [hed, hlt]
    · intro hge
      unfold cancel_booking
      rw [hf]
      cases hed : b.end_date with
      | none => simp [hed, hbi]
      | some ed =>
          have hnlt : ¬ ed < now := by have := hge ed hed; omega
          simp [hed, hnlt, hbi]

/-- A store with one `confirmed` booking (id 9) whose end lies in the
future at `now = 10`. -/
def stCn : Store :=
  { rooms := [], users := [],
    bookings := [{ id := 9, room_id := 1, user_id := 1, start_date := some 20,
                   end_date := some 30, status := "confirmed", created_at := some 8 }],
    nextUserId := 1, nextBookingId := 10 }

/-- **C6 witness**: cancelling the `confirmed` booking `9` before its end
succeeds and stores `cancelled`. -/
theorem cancel_spec_witness :
    cancel_booking stCn 10 9 =
      (.ok "Booking cancelled successfully.",
       { stCn with bookings := setStatus stCn.bookings 9 "cancelled" }) :=
  ((cancel_spec stCn 10 9).2
    { id := 9, room_id := 1, user_id := 1, start_date := some 20,
      end_date := some 30, status := "confirmed", created_at := some 8 }
    (by simp [stCn]) (by simp [stCn]) rfl).2
    (by intro ed hed; cases hed; decide)

/-- A row with a different primary key is untouched by `setStatus`. -/
theorem mem_setStatus_of_ne (bs : List Booking) (i : Nat) (st : String) (b : Booking)
    (hb : b ∈ bs) (hne : b.id ≠ i) : b ∈ setStatus bs i st := by
  unfold setStatus
  refine List.mem_map.mpr ⟨b, hb, ?_⟩
  rw [if_neg (by simp [hne])]

/-- A row already holding the written status is untouched by `setStatus`. -/
theorem mem_setStatus_of_eq_status (bs : List Booking) (i : Nat) (st : String) (b : Booking)
    (hb : b ∈ bs) (hst : b.status = st) : b ∈ setStatus bs i st := by
  unfold setStatus
  refine List.mem_map.mpr ⟨b, hb, ?_⟩
  by_cases hid : b.id = i
  · rw [if_pos (by simp [hid])]
    cases b
    simp_all
  · rw [if_neg (by simp [hid])]

/-- A `released` booking (id 1) whose end lies in the future at `now = 0`. -/
def bRel : Booking :=
  { id := 1, room_id := 1, user_id := 1, start_date := some 10, end_date := some 100,
    status := "released", created_at := some 0 }

/-- A store holding only `bRel`. -/
def stRel : Store :=
  { rooms := [], users := [], bookings := [bRel], nextUserId := 1, nextBookingId := 2 }

/-- **C2 counterexample**: `cancel_booking` on the `released` reservation
`1` (end in the future) succeeds and rewrites its stored status to
`cancelled`, so a `released` status is not terminal. -/
theorem terminal_status_cex :
    bRel.status = "released" ∧
    cancel_booking stRel 0 1 =
      (.ok "Booking cancelled successfully.",
       { stRel with bookings := [{ bRel with status := "cancelled" }] }) := by
  constructor
  · rfl
  · rfl

/-- **C2** (corrected): a terminal (`cancelled`/`released`) stored status
is never changed by `create_booking`, `confirm_booking` or
`release_booking`, and `cancel_booking` never changes a `cancelled`
status; but `cancel_booking` rewrites a `released` reservation (end not
yet passed) to `cancelled`, and `update_booking` overwrites any stored
status with the supplied one. -/
theorem terminal_status_preserved (store : Store) (now hold : Int) (i rid : Nat)
    (nm em st2 : String) (sIn eIn : DateInput) (b : Booking)
    (hn : (store.bookings.map Booking.id).Nodup)
    (hb : b ∈ store.bookings)
    (hterm : b.status = "cancelled" ∨ b.status = "released") :
    b ∈ (confirm_booking store now hold i).2.bookings
  ∧ b ∈ (release_booking store i).2.bookings
  ∧ (b.status = "cancelled" → b ∈ (cancel_booking store now i).2.bookings)
  ∧ b ∈ (create_booking store now hold rid nm em sIn eIn st2).2.bookings := by
  have hnotpending : b.status ≠ "pending" := by
    rcases hterm with h | h <;> simp [h]
  refine ⟨?_, ?_, ?_, ?_⟩
  · cases hf : store.bookings.find? (fun x =>
        x.id == i && x.status == "pending" &&
          x.created_at.any fun c => _get_expired_threshold now hold < c) with
    | none =>
        unfold confirm_booking
        rw [hf]
        exact hb
    | some b2 =>
        have h2 := List.find?_some hf
        simp only [Bool.and_eq_true, beq_iff_eq] at h2
        have hb2 := List.mem_of_find?_eq_some hf
        have hne : b.id ≠ b2.id := fun he =>
          hnotpending (by rw [List.inj_on_of_nodup_map hn hb hb2 he]; exact h2.1.2)
        unfold confirm_booking
        rw [hf]
        exact mem_setStatus_of_ne _ _ _ _ hb hne
  · cases hf : store.bookings.find? (fun x => x.id == i && x.status == "pending") with
    | none =>
        unfold release_booking
        rw [hf]
        exact hb
    | some b2 =>
        have h2 := List.find?_some hf
        simp only [Bool.and_eq_true, beq_iff_eq] at h2
        have hb2 := List.mem_of_find?_eq_some hf
        have hne : b.id ≠ b2.id := fun he =>
          hnotpending (by rw [List.inj_on_of_nodup_map hn hb hb2 he]; exact h2.2)
        unfold release_booking
        rw [hf]
        exact mem_setStatus_of_ne _ _ _ _ hb hne
  · intro hc
    cases hf : store.bookings.find? (fun x => x.id == i) with
    | none =>
        unfold cancel_booking
        rw [hf]
        exact hb
    | some b2 =>
        unfold cancel_booking
        rw [hf]
        cases hed : b2.end_date with
        | some ed =>
            by_cases hlt : ed < now
            · simp only [hed, if_pos hlt]
              exact hb
            · simp only [hed, if_neg hlt]
              exact mem_setStatus_of_eq_status _ _ _ _ hb hc
        | none =>
            simp only [hed]
            exact mem_setStatus_of_eq_status _ _ _ _ hb hc
  · unfold create_booking
    split
    · exact hb
    · split
      · exact hb
      · split
        · exact hb
        · split
          · rw [retrieve_user_bookings]
            exact hb
          · refine List.mem_append_left _ ?_
            rw [retrieve_user_bookings]
            exact hb

/-- **C2 witness**: on the one-`released`-booking store, confirm, release,
and create all leave the released row in place. -/
theorem terminal_status_preserved_witness :
    bRel ∈ (confirm_booking stRel 0 5 1).2.bookings
  ∧ bRel ∈ (release_booking stRel 1).2.bookings
  ∧ (bRel.status = "cancelled" → bRel ∈ (cancel_booking stRel 0 1).2.bookings)
  ∧ bRel ∈ (create_booking stRel 0 5 1 "n" "e@x" (.dtVal ⟨1, some 0⟩)
      (.dtVal ⟨2, some 0⟩) "pending").2.bookings :=
  terminal_status_preserved stRel 0 5 1 1 "n" "e@x" "pending"
    (.dtVal ⟨1, some 0⟩) (.dtVal ⟨2, some 0⟩) bRel (by simp [stRel])
    (by simp [stRel]) (Or.inr rfl)

/-- An aware window `[s, e)` with `now ≤ s < e` validates to `(s, e)`. -/
theorem validate_aware_ok (now s e : Int) (hse : s < e) (hns : now ≤ s) (hne2 : now ≤ e) :
    _validate_booking_dates now (.dtVal ⟨s, some 0⟩) (.dtVal ⟨e, some 0⟩) = .ok (s, e) := by
  have hps : _parse_datetime (.dtVal ⟨s, some 0⟩) = some s := by
    simp [_parse_datetime, PyDatetime.instant]
  have hpe : _parse_datetime (.dtVal ⟨e, some 0⟩) = some e := by
    simp [_parse_datetime, PyDatetime.instant]
  unfold _validate_booking_dates
  simp only [DateInput.truthy, Bool.and_self, Bool.not_true, Bool.false_eq_true, if_false,
    hps, hpe]
  rw [if_neg (by omega), if_neg (by omega)]

/-- When the room exists, the window validates, and the post-user-resolution
availability check fails, `create_booking` returns `RoomUnavailable` with
only the user resolution committed. -/
theorem create_booking_blocked (store : Store) (now hold : Int) (rid : Nat)
    (nm em : String) (sIn eIn : DateInput) (s e : Int) (st2 : String)
    (h1 : rid ≠ 0) (h2 : nm ≠ "") (h3 : em ≠ "")
    (hval : _validate_booking_dates now sIn eIn = .ok (s, e))
    (hroom : ∃ r ∈ store.rooms, r.id = rid)
    (hbl : _check_room_available (retrieve_user store nm em).2 now hold rid s e = false) :
    create_booking store now hold rid nm em sIn eIn st2 =
      (.err "Room is not available for the selected time range.",
       (retrieve_user store nm em).2) := by
  obtain ⟨hts, hte⟩ := validate_ok_truthy now sIn eIn (s, e) hval
  unfold create_booking
  rw [if_neg (by simp [h1, h2, h3, hts, hte])]
  simp only [hval]
  cases hf : store.rooms.find? (fun r => r.id == rid) with
  | none =>
      obtain ⟨r, hr, hri⟩ := hroom
      exact absurd (show (r.id == rid) = true by simp [hri]) (List.find?_eq_none.mp hf r hr)
  | some r =>
      simp only [hf]
      rw [if_pos (by simp [hbl])]

/-- When the room exists, the window validates, and the post-user-resolution
availability check passes, `create_booking` inserts a fresh booking stamped
with the current instant. -/
theorem create_booking_ok (store : Store) (now hold : Int) (rid : Nat)
    (nm em : String) (sIn eIn : DateInput) (s e : Int) (st2 : String)
    (h1 : rid ≠ 0) (h2 : nm ≠ "") (h3 : em ≠ "")
    (hval : _validate_booking_dates now sIn eIn = .ok (s, e))
    (hroom : ∃ r ∈ store.rooms, r.id = rid)
    (hav : _check_room_available (retrieve_user store nm em).2 now hold rid s e = true) :
    create_booking store now hold rid nm em sIn eIn st2 =
      (.okId "Booking created successfully." store.nextBookingId,
       { (retrieve_user store nm em).2 with
           bookings := (retrieve_user store nm em).2.bookings ++
             [{ id := store.nextBookingId, room_id := rid,
                user_id := (retrieve_user store nm em).1.id,
                start_date := some s, end_date := some e, status := st2,
                created_at := some now }],
           nextBookingId := store.nextBookingId + 1 }) := by
  obtain ⟨hts, hte⟩ := validate_ok_truthy now sIn eIn (s, e) hval
  unfold create_booking
  rw [if_neg (by simp [h1, h2, h3, hts, hte])]
  simp only [hval]
  cases hf : store.rooms.find? (fun r => r.id == rid) with
  | none =>
      obtain ⟨r, hr, hri⟩ := hroom
      exact absurd (show (r.id == rid) = true by simp [hri]) (List.find?_eq_none.mp hf r hr)
  | some r =>
      simp only [hf]
      rw [if_neg (by simp [hav])]
      rw [retrieve_user_nextBookingId]
      simp [newBookingCreatedAt]

/-- **C8** (confirmed): the availability re-check of `update_booking`
excludes no reservation, so a reservation that itself blocks (confirmed, or
pending and unexpired) cannot be updated — with new status `confirmed` or
`pending` — to any valid window overlapping its own current window: the
call fails `RoomUnavailable` and the store is unchanged. -/
theorem update_self_overlap_blocked (store : Store) (now hold : Int)
    (sIn eIn : DateInput) (s e : Int) (st2 : String) (b : Booking) (sd ed : Int)
    (hn : (store.bookings.map Booking.id).Nodup)
    (hb : b ∈ store.bookings)
    (hval : _validate_booking_dates now sIn eIn = .ok (s, e))
    (hst : st2 = "confirmed" ∨ st2 = "pending")
    (hblk : b.status = "confirmed" ∨
      (b.status = "pending" ∧ ∃ c, b.created_at = some c ∧ now - hold < c))
    (hsd : b.start_date = some sd) (hed : b.end_date = some ed)
    (hov1 : sd < e) (hov2 : s < ed) :
    update_booking store now hold b.id sIn eIn st2 =
      (.err "Room is not available for the selected time range.", store) := by
  have hf : store.bookings.find? (fun x => x.id == b.id) = some b := by
    refine find_first_unique store.bookings _ b hn hb (by simp) ?_
    intro x hpx
    simpa using hpx
  have hbw : blocksWindow now hold s e b = true := by
    rcases hblk with h | ⟨h, c, hca, hc⟩
    · simp [blocksWindow, h, hsd, hed, hov1, hov2]
    · simp [blocksWindow, h, hsd, hed, hov1, hov2, hca, _get_expired_threshold]
      omega
  have hak : _check_room_available store now hold b.room_id s e = false := by
    unfold _check_room_available
    rw [Bool.not_eq_false']
    exact List.any_eq_true.mpr ⟨b, hb, by simp [hbw]⟩
  unfold update_booking
  simp only [hf, hval]
  rw [if_pos (by rcases hst with h | h <;> simp [h, hak])]

/-- A store with one unexpired `pending` booking (id 2) on room 1 over
`[10, 20)`. -/
def stU : Store :=
  { rooms := [], users := [],
    bookings := [{ id := 2, room_id := 1, user_id := 1, start_date := some 10,
                   end_date := some 20, status := "pending", created_at := some 0 }],
    nextUserId := 1, nextBookingId := 3 }

/-- **C8 witness**: updating booking `2` to its own window `[10, 20)` with
new status `confirmed` at `now = 0`, `hold = 5` fails `RoomUnavailable`
and leaves the store alone. -/
theorem update_self_overlap_blocked_witness :
    update_booking stU 0 5 2 (.dtVal ⟨10, some 0⟩) (.dtVal ⟨20, some 0⟩) "confirmed" =
      (.err "Room is not available for the selected time range.", stU) :=
  update_self_overlap_blocked stU 0 5 (.dtVal ⟨10, some 0⟩) (.dtVal ⟨20, some 0⟩)
    10 20 "confirmed"
    { id := 2, room_id := 1, user_id := 1, start_date := some 10,
      end_date := some 20, status := "pending", created_at := some 0 }
    10 20 (by simp [stU]) (by simp [stU])
    (validate_aware_ok 0 10 20 (by decide) (by decide) (by decide))
    (Or.inl rfl) (Or.inr ⟨rfl, 0, rfl, by decide⟩) rfl rfl (by decide) (by decide)

/-- **C10** (confirmed): when no user with the email exists, the room
exists, the window validates, and the room is blocked for it,
`create_booking` fails `RoomUnavailable` yet the freshly created user row
remains committed; rooms and bookings are unchanged. -/
theorem create_unavailable_persists_user (store : Store) (now hold : Int) (rid : Nat)
    (nm em : String) (sIn eIn : DateInput) (s e : Int)
    (h1 : rid ≠ 0) (h2 : nm ≠ "") (h3 : em ≠ "")
    (hval : _validate_booking_dates now sIn eIn = .ok (s, e))
    (hroom : ∃ r ∈ store.rooms, r.id = rid)
    (hnouser : ∀ u ∈ store.users, u.email ≠ em)
    (hblocked : ∃ b ∈ store.bookings, b.room_id = rid ∧ blocksWindow now hold s e b = true) :
    create_booking store now hold rid nm em sIn eIn =
      (.err "Room is not available for the selected time range.",
       { store with
           users := store.users ++
             [{ id := store.nextUserId, username := nm, email := em, password := "" }],
           nextUserId := store.nextUserId + 1 }) := by
  have hru : retrieve_user store nm em =
      ({ id := store.nextUserId, username := nm, email := em, password := "" },
       { store with
           users := store.users ++
             [{ id := store.nextUserId, username := nm, email := em, password := "" }],
           nextUserId := store.nextUserId + 1 }) := by
    have hf : store.users.find? (fun x => x.email == em) = none :=
      List.find?_eq_none.mpr fun x hx hpx => hnouser x hx (by simpa using hpx)
    unfold retrieve_user
    rw [hf]
  have hbl : _check_room_available (retrieve_user store nm em).2 now hold rid s e = false := by
    rw [hru]
    unfold _check_room_available
    rw [Bool.not_eq_false']
    obtain ⟨b, hbmem, hbrid, hbw⟩ := hblocked
    exact List.any_eq_true.mpr ⟨b, hbmem, by simp [hbrid, hbw]⟩
  rw [create_booking_blocked store now hold rid nm em sIn eIn s e "pending"
    h1 h2 h3 hval hroom hbl, hru]

/-- A one-room store with a blocking `confirmed` booking over `[10, 20)`
and no users. -/
def stP : Store :=
  { rooms := [{ id := 1, name := "R", description := "d", price := 50 }],
    users := [],
    bookings := [{ id := 1, room_id := 1, user_id := 1, start_date := some 10,
                   end_date := some 20, status := "confirmed", created_at := some 0 }],
    nextUserId := 5, nextBookingId := 2 }

/-- **C10 witness**: creating on the blocked room with a fresh email fails
`RoomUnavailable` but the new user `5` stays committed. -/
theorem create_unavailable_persists_user_witness :
    create_booking stP 0 5 1 "carol" "c@x" (.dtVal ⟨10, some 0⟩) (.dtVal ⟨20, some 0⟩) =
      (.err "Room is not available for the selected time range.",
       { stP with
           users := stP.users ++ [{ id := 5, username := "carol", email := "c@x", password := "" }],
           nextUserId := 6 }) :=
  create_unavailable_persists_user stP 0 5 1 "carol" "c@x"
    (.dtVal ⟨10, some 0⟩) (.dtVal ⟨20, some 0⟩) 10 20
    (by decide) (by decide) (by decide)
    (validate_aware_ok 0 10 20 (by decide) (by decide) (by decide))
    ⟨{ id := 1, name := "R", description := "d", price := 50 }, by simp [stP], rfl⟩
    (by intro u hu; simp [stP] at hu)
    ⟨{ id := 1, room_id := 1, user_id := 1, start_date := some 10,
       end_date := some 20, status := "confirmed", created_at := some 0 },
     by simp [stP], rfl, by decide⟩

/-- **C1** (confirmed): on a store whose room `rid` has no reservations,
creating a valid strictly-future window succeeds and inserts one `pending`
reservation; an immediate second create for the same room and window fails
`RoomUnavailable` and inserts nothing. -/
theorem create_then_duplicate_unavailable (store : Store) (now hold s e : Int) (rid : Nat)
    (nm em nm2 em2 : String)
    (h1 : rid ≠ 0) (h2 : nm ≠ "") (h3 : em ≠ "") (h4 : nm2 ≠ "") (h5 : em2 ≠ "")
    (hroom : ∃ r ∈ store.rooms, r.id = rid)
    (hfresh : ∀ b ∈ store.bookings, b.room_id ≠ rid)
    (hhold : 0 < hold) (hs : now < s) (hse : s < e) :
    (create_booking store now hold rid nm em (.dtVal ⟨s, some 0⟩) (.dtVal ⟨e, some 0⟩)).1 =
        .okId "Booking created successfully." store.nextBookingId
  ∧ (∃ uid,
      (create_booking store now hold rid nm em
          (.dtVal ⟨s, some 0⟩) (.dtVal ⟨e, some 0⟩)).2.bookings =
        store.bookings ++
          [{ id := store.nextBookingId, room_id := rid, user_id := uid,
             start_date := some s, end_date := some e, status := "pending",
             created_at := some now }])
  ∧ (create_booking
        (create_booking store now hold rid nm em
          (.dtVal ⟨s, some 0⟩) (.dtVal ⟨e, some 0⟩)).2
        now hold rid nm2 em2 (.dtVal ⟨s, some 0⟩) (.dtVal ⟨e, some 0⟩)).1 =
      .err "Room is not available for the selected time range."
  ∧ (create_booking
        (create_booking store now hold rid nm em
          (.dtVal ⟨s, some 0⟩) (.dtVal ⟨e, some 0⟩)).2
        now hold rid nm2 em2 (.dtVal ⟨s, some 0⟩) (.dtVal ⟨e, some 0⟩)).2.bookings =
      (create_booking store now hold rid nm em
        (.dtVal ⟨s, some 0⟩) (.dtVal ⟨e, some 0⟩)).2.bookings := by
  have hval : _validate_booking_dates now (.dtVal ⟨s, some 0⟩) (.dtVal ⟨e, some 0⟩) =
      .ok (s, e) :=
    validate_aware_ok now s e hse (by omega) (by omega)
  have hav1 : _check_room_available (retrieve_user store nm em).2 now hold rid s e = true := by
    unfold _check_room_available
    rw [retrieve_user_bookings, Bool.not_eq_true']
    refine List.any_eq_false.mpr fun x hx hpx => ?_
    simp only [Bool.and_eq_true, beq_iff_eq] at hpx
    exact hfresh x hx hpx.1
  have hr1 := create_booking_ok store now hold rid nm em
    (.dtVal ⟨s, some 0⟩) (.dtVal ⟨e, some 0⟩) s e "pending" h1 h2 h3 hval hroom hav1
  have hroom2 : ∃ r ∈ (create_booking store now hold rid nm em
      (.dtVal ⟨s, some 0⟩) (.dtVal ⟨e, some 0⟩)).2.rooms, r.id = rid := by
    rw [hr1]
    show ∃ r ∈ (retrieve_user store nm em).2.rooms, r.id = rid
    rw [retrieve_user_rooms]
    exact hroom
  have hbl2 : _check_room_available
      (retrieve_user (create_booking store now hold rid nm em
        (.dtVal ⟨s, some 0⟩) (.dtVal ⟨e, some 0⟩)).2 nm2 em2).2
      now hold rid s e = false := by
    unfold _check_room_available
    rw [retrieve_user_bookings, Bool.not_eq_false']
    refine List.any_eq_true.mpr
      ⟨{ id := store.nextBookingId, room_id := rid,
         user_id := (retrieve_user store nm em).1.id, start_date := some s,
         end_date := some e, status := "pending", created_at := some now },
       ?_, ?_⟩
    · rw [hr1]
      exact List.mem_append_right _ (List.mem_singleton_self _)
    · simp [blocksWindow, _get_expired_threshold]
      omega
  have hr2 := create_booking_blocked _ now hold rid nm2 em2
    (.dtVal ⟨s, some 0⟩) (.dtVal ⟨e, some 0⟩) s e "pending" h1 h4 h5 hval hroom2 hbl2
  refine ⟨by rw [hr1], ⟨(retrieve_user store nm em).1.id, ?_⟩, by rw [hr2], ?_⟩
  · rw [hr1, retrieve_user_bookings]
  · rw [hr2]
    exact retrieve_user_bookings _ nm2 em2

/-- A one-room store with no users and no bookings. -/
def stF : Store :=
  { rooms := [{ id := 1, name := "R", description := "d", price := 50 }],
    users := [], bookings := [], nextUserId := 1, nextBookingId := 1 }

/-- **C1 witness**: on the fresh room, creating `[100, 160)` at `now = 0`,
`hold = 5` succeeds; the identical second create fails `RoomUnavailable`
and adds no booking. -/
theorem create_then_duplicate_unavailable_witness :
    (create_booking stF 0 5 1 "alice" "a@x" (.dtVal ⟨100, some 0⟩) (.dtVal ⟨160, some 0⟩)).1 =
        .okId "Booking created successfully." stF.nextBookingId
  ∧ (∃ uid,
      (create_booking stF 0 5 1 "alice" "a@x"
          (.dtVal ⟨100, some 0⟩) (.dtVal ⟨160, some 0⟩)).2.bookings =
        stF.bookings ++
          [{ id := stF.nextBookingId, room_id := 1, user_id := uid,
             start_date := some 100, end_date := some 160, status := "pending",
             created_at := some 0 }])
  ∧ (create_booking
        (create_booking stF 0 5 1 "alice" "a@x"
          (.dtVal ⟨100, some 0⟩) (.dtVal ⟨160, some 0⟩)).2
        0 5 1 "bob" "b@x" (.dtVal ⟨100, some 0⟩) (.dtVal ⟨160, some 0⟩)).1 =
      .err "Room is not available for the selected time range."
  ∧ (create_booking
        (create_booking stF 0 5 1 "alice" "a@x"
          (.dtVal ⟨100, some 0⟩) (.dtVal ⟨160, some 0⟩)).2
        0 5 1 "bob" "b@x" (.dtVal ⟨100, some 0⟩) (.dtVal ⟨160, some 0⟩)).2.bookings =
      (create_booking stF 0 5 1 "alice" "a@x"
        (.dtVal ⟨100, some 0⟩) (.dtVal ⟨160, some 0⟩)).2.bookings :=
  create_then_duplicate_unavailable stF 0 5 100 160 1 "alice" "a@x" "bob" "b@x"
    (by decide) (by decide) (by decide) (by decide) (by decide)
    ⟨{ id := 1, name := "R", description := "d", price := 50 }, by simp [stF], rfl⟩
    (by intro b hb; simp [stF] at hb)
    (by decide) (by decide) (by decide)

end BookingService
